import Mathlib

/-!
Verification of the repository-sync backend (`app/db/github_commands.py`,
`app/modules/github.py`) against its specification.

The Python code is shallowly embedded as pure Lean functions.  Effects are
made explicit:
* the three concurrent top-level fetches of `sync_repositories` (store names,
  GitHub names, Backstage names) are inputs of type `Except Unit (List String)`
  — `asyncio.gather(..., return_exceptions=True)` turns a raised exception
  into a value, modelled by `Except.error`;
* store writes (`delete_one`, `insert_many`, `replace_one`) are recorded in an
  output trace of `StoreOp`s;
* enrichment calls (`get_multiple_repositories_info`, one per batch) and the
  inter-batch `asyncio.sleep(1)` pauses are counted;
* wall-clock time for the cache is an explicit `Int` parameter (`datetime.now()`).
-/

namespace AppReport

/-! ## Definitions: the shallow embedding -/

/-- Per-repository enrichment facts, as produced by
`GithubClient.get_repository_complete_info` (which never raises: it degrades
each failed sub-fetch to its default).  Mirrors the keys of the returned dict. -/
structure RepoInfo where
  contributors : List String
  have_github_actions : Bool
  have_tech_docs : Bool
  have_github_actions_annotations : Bool
  have_datadog : Bool
  have_sonar : Bool
deriving Repr, DecidableEq

/-- Defaults used by `_process_repositories_batch` when
`repo_info_dict.get(repo_name, {})` misses: every `.get(key, default)` then
yields the default. -/
def RepoInfo.defaults : RepoInfo :=
  { contributors := []
    have_github_actions := false
    have_tech_docs := false
    have_github_actions_annotations := false
    have_datadog := false
    have_sonar := false }

/-- The `backstage` sub-document of `repository.RepositoryInDB`. -/
structure BackstageDoc where
  active : Bool
  tech_docs : Bool
  sonar : Bool
  github_actions : Bool
  datadog : Bool
deriving Repr, DecidableEq

/-- A document as assembled by `_process_repositories_batch` /
`sync_single_repository` before insertion (`RepositoryInDB` minus the
store-assigned id and timestamps). -/
structure RepositoryDoc where
  name : String
  contributors : List String
  backstage : BackstageDoc
  github_active : Bool
  sonarcloud_active : Bool
deriving Repr, DecidableEq

/-- The `sync_response.SyncRepository` pydantic schema. -/
structure SyncRepository where
  status : String
  newRepositories : List String
  newRepositoriesCount : Nat
  deletedRepositories : List String
  deletedRepositoriesCount : Nat
deriving Repr, DecidableEq

/-- A store-write operation issued against the Mongo collection. -/
inductive StoreOp where
  | deleteOne (name : String)
  | insertMany (docs : List RepositoryDoc)
  | replaceOne (name : String) (doc : RepositoryDoc)
deriving Repr, DecidableEq

/-- Python truthiness of an optional string setting (`None` and `""` are
falsy), as used by `if sonarcloud_token` and `if sonar_checker and
sonarcloud_org`. -/
def pyTruthy : Option String → Bool
  | none => false
  | some s => !s.isEmpty

/-- The `isinstance(results[i], Exception)` handling at the top of
`sync_repositories` (lines 61–78): an exceptional gather slot degrades to the
empty list. -/
def degradeFetch (r : Except Unit (List String)) : List String :=
  match r with
  | .ok l => l
  | .error _ => []

/-- Environment of one `sync_repositories` call: the outcomes of the three
concurrent fetches, the enrichment and SonarCloud oracles, and the SonarCloud
settings. -/
structure SyncEnv where
  dbFetch : Except Unit (List String)
  githubFetch : Except Unit (List String)
  backstageFetch : Except Unit (List String)
  repoInfo : String → Option RepoInfo
  sonar : String → Except Unit Bool
  sonarcloud_token : Option String
  sonarcloud_org : Option String

/-- Everything observable about one `sync_repositories` call. -/
structure SyncOutcome where
  result : SyncRepository
  storeOps : List StoreOp
  enrichmentCalls : Nat
  pauses : Nat
  processedBatches : List (List String)
deriving Repr, DecidableEq

/-- Line 80: `new_repos = [item for item in repositories_in_github if item not in
repositories_in_db]`. -/
def new_repos (env : SyncEnv) : List String :=
  (degradeFetch env.githubFetch).filter
    (fun item => !(degradeFetch env.dbFetch).contains item)

/-- Line 81: `delete_repos = [item for item in repositories_in_db if item not in
repositories_in_github]`. -/
def delete_repos (env : SyncEnv) : List String :=
  (degradeFetch env.dbFetch).filter
    (fun item => !(degradeFetch env.githubFetch).contains item)

/-- Document assembly for one repository inside
`_process_repositories_batch` (lines 157–184).  `useSonar` is
`sonar_checker and sonarcloud_org` being truthy; otherwise
`sonarcloud_results = [False] * len(repo_batch)`.  An exceptional SonarCloud
slot degrades to `False` (line 165). -/
def buildDocument (info : String → Option RepoInfo)
    (sonarOracle : String → Except Unit Bool) (backstage_repos : List String)
    (useSonar : Bool) (repo_name : String) : RepositoryDoc :=
  let repo_info := (info repo_name).getD RepoInfo.defaults
  let active_backstage := backstage_repos.contains repo_name
  let has_sonarcloud : Bool :=
    if useSonar then
      match sonarOracle repo_name with
      | .ok b => b
      | .error _ => false
    else false
  { name := repo_name
    contributors := repo_info.contributors
    backstage :=
      { active := active_backstage
        tech_docs := repo_info.have_tech_docs
        sonar := repo_info.have_sonar
        github_actions := repo_info.have_github_actions_annotations
        datadog := repo_info.have_datadog }
    github_active := repo_info.have_github_actions
    sonarcloud_active := has_sonarcloud }

/-- The batching loop of `sync_repositories` (lines 104–118):
`for i in range(0, len(new_repos), batch_size)` takes `new_repos[i:i+batch_size]`,
runs `_process_repositories_batch` on it (one `get_multiple_repositories_info`
call and, if the chunk is non-empty, one `insert_many`), and sleeps iff
`i + batch_size < len(new_repos)`, i.e. iff more than `batch_size` elements
remain.  The loop is written with structural fuel; fuel `remaining.length`
suffices for every `batch_size ≥ 1`, matching the Python loop (whose `range`
raises on step 0, a case outside every claim).
Returns (store ops, enrichment calls, pauses, batches). -/
def processChunks (info : String → Option RepoInfo)
    (sonarOracle : String → Except Unit Bool)
    (backstage_repos : List String) (useSonar : Bool) :
    Nat → List String → Nat → List StoreOp × Nat × Nat × List (List String)
  | 0, _, _ => ([], 0, 0, [])
  | _ + 1, [], _ => ([], 0, 0, [])
  | fuel + 1, a :: rest_names, batch_size =>
    let remaining := a :: rest_names
    let batch := remaining.take batch_size
    let documents_to_insert := batch.map
      (buildDocument info sonarOracle backstage_repos useSonar)
    let pause : Nat := if batch_size < remaining.length then 1 else 0
    let rest := processChunks info sonarOracle backstage_repos useSonar fuel
      (remaining.drop batch_size) batch_size
    (if documents_to_insert.isEmpty then rest.1
      else StoreOp.insertMany documents_to_insert :: rest.1,
     rest.2.1 + 1, pause + rest.2.2.1, batch :: rest.2.2.2)

/-- `GithubCommands.sync_repositories` (lines 35–126), as a function of the
fetch outcomes and oracles. -/
def sync_repositories (env : SyncEnv) (batch_size : Nat) : SyncOutcome :=
  let backstage_repos := degradeFetch env.backstageFetch
  let new_repos := new_repos env
  let delete_repos := delete_repos env
  -- `sonar_checker = SonarCloudChecker(...) if sonarcloud_token else None`;
  -- the batch then tests `if sonar_checker and sonarcloud_org`.
  let useSonar := pyTruthy env.sonarcloud_token && pyTruthy env.sonarcloud_org
  if new_repos.isEmpty && delete_repos.isEmpty then
    { result :=
        { status := "No changes"
          newRepositories := []
          newRepositoriesCount := 0
          deletedRepositories := []
          deletedRepositoriesCount := 0 }
      storeOps := []
      enrichmentCalls := 0
      pauses := 0
      processedBatches := [] }
  else
    let deleteOps := delete_repos.map StoreOp.deleteOne
    let chunks := processChunks env.repoInfo env.sonar backstage_repos useSonar
      new_repos.length new_repos batch_size
    { result :=
        { status := "Updated"
          newRepositories := new_repos
          newRepositoriesCount := new_repos.length
          deletedRepositories := delete_repos
          deletedRepositoriesCount := delete_repos.length }
      storeOps := deleteOps ++ chunks.1
      enrichmentCalls := chunks.2.1
      pauses := chunks.2.2.1
      processedBatches := chunks.2.2.2 }

/-- Concrete environment in which the source-host list and the stored list are
both `["a"]` (so A = B and the diff is empty). -/
def envNoChange : SyncEnv :=
  { dbFetch := .ok ["a"]
    githubFetch := .ok ["a"]
    backstageFetch := .ok []
    repoInfo := fun _ => none
    sonar := fun _ => .ok false
    sonarcloud_token := none
    sonarcloud_org := none }

/-- Concrete environment: empty store, 25 repositories at the source host. -/
def env25 : SyncEnv :=
  { dbFetch := .ok []
    githubFetch := .ok ((List.range 25).map (fun i => toString i))
    backstageFetch := .ok []
    repoInfo := fun _ => none
    sonar := fun _ => .ok false
    sonarcloud_token := none
    sonarcloud_org := none }

/-- Concrete environment with no SonarCloud token configured but a SonarCloud
oracle that would answer `true`: one new repository `"r"`. -/
def envSonarOff : SyncEnv :=
  { dbFetch := .ok []
    githubFetch := .ok ["r"]
    backstageFetch := .ok []
    repoInfo := fun _ => none
    sonar := fun _ => .ok true
    sonarcloud_token := none
    sonarcloud_org := some "org" }

/-- The status/message dict returned by `sync_single_repository`. -/
structure SingleResult where
  status : String
  message : String
deriving Repr, DecidableEq

/-- Environment of one `sync_single_repository` call.  `githubFetch` and
`backstageFetch` may raise (uncaught there — modelled as `Except`);
`get_repository_complete_info` and `_check_sonarcloud_safe` are total
(they catch internally), hence plain oracles.  `upsertCreates` is whether
`replace_one(..., upsert=True)` reports an `upserted_id`. -/
structure SyncOneEnv where
  githubFetch : Except Unit (List String)
  backstageFetch : Except Unit (List String)
  repoInfo : String → RepoInfo
  sonar : String → Bool
  sonarcloud_token : Option String
  sonarcloud_org : Option String
  upsertCreates : Bool

/-- `GithubCommands.sync_single_repository`: returns the result
(`.error` models an uncaught raised exception) and the trace of store
operations performed. -/
def sync_single_repository (env : SyncOneEnv) (repo_name : String) :
    Except Unit SingleResult × List StoreOp :=
  match env.githubFetch with
  | .error e => (.error e, [])
  | .ok github_repos =>
    if !github_repos.contains repo_name then
      (.ok { status := "error"
             message := "Repository " ++ repo_name ++ " not found in GitHub" },
       [])
    else
      match env.backstageFetch with
      | .error e => (.error e, [])
      | .ok backstage_repos =>
        let repo_info := env.repoInfo repo_name
        let active_backstage := backstage_repos.contains repo_name
        let has_sonarcloud :=
          if pyTruthy env.sonarcloud_token && pyTruthy env.sonarcloud_org then
            env.sonar repo_name
          else false
        let repo_document : RepositoryDoc :=
          { name := repo_name
            contributors := repo_info.contributors
            backstage :=
              { active := active_backstage
                tech_docs := repo_info.have_tech_docs
                sonar := repo_info.have_sonar
                github_actions := repo_info.have_github_actions_annotations
                datadog := repo_info.have_datadog }
            github_active := repo_info.have_github_actions
            sonarcloud_active := has_sonarcloud }
        if env.upsertCreates then
          (.ok { status := "created"
                 message := "Repository " ++ repo_name ++ " created successfully" },
           [StoreOp.replaceOne repo_name repo_document])
        else
          (.ok { status := "updated"
                 message := "Repository " ++ repo_name ++ " updated successfully" },
           [StoreOp.replaceOne repo_name repo_document])

/-- Concrete environment whose source-host list is `["a"]`. -/
def envSyncOne : SyncOneEnv :=
  { githubFetch := .ok ["a"]
    backstageFetch := .ok []
    repoInfo := fun _ => RepoInfo.defaults
    sonar := fun _ => false
    sonarcloud_token := none
    sonarcloud_org := none
    upsertCreates := true }

/-- `CacheEntry` (lines 11–17): a stored Python value plus an absolute expiry
instant.  Time is modelled as an integer (`datetime.now()` readings in
minutes); the stored value is an `Option String` — file contents, with `none`
standing for Python `None` (e.g. a recorded 404). -/
structure CacheEntry where
  data : Option String
  expiry : Int
deriving Repr, DecidableEq

/-- `CacheEntry.__init__`:
`self.expiry = datetime.now() + timedelta(minutes=expiry_minutes)`. -/
def CacheEntry.create (data : Option String) (now expiry_minutes : Int) :
    CacheEntry :=
  { data := data, expiry := now + expiry_minutes }

/-- `CacheEntry.is_expired`: `datetime.now() > self.expiry`. -/
def CacheEntry.is_expired (e : CacheEntry) (now : Int) : Bool :=
  now > e.expiry

/-- One cache dictionary (`self._cache` / `self._file_cache`). -/
def CacheMap : Type := String → Option CacheEntry

/-- `GithubClient._get_cached_data` (lines 56–61): returns the stored Python
value if the key is present and unexpired, else Python `None`.  Because the
stored value may itself be `None`, the return collapses a stored `none` and a
miss into the same observation, exactly as in Python. -/
def get_cached_data (cache : CacheMap) (cache_key : String) (now : Int) :
    Option String :=
  match cache cache_key with
  | some entry => if !(entry.is_expired now) then entry.data else none
  | none => none

/-- `GithubClient._set_cache_data` (lines 63–66). -/
def set_cache_data (cache : CacheMap) (cache_key : String) (data : Option String)
    (now expiry_minutes : Int) : CacheMap :=
  fun k =>
    if k = cache_key then some (CacheEntry.create data now expiry_minutes)
    else cache k

/-- Outcome of the remote GitHub contents request inside
`get_repository_file_content` (lines 104–126). -/
inductive RemoteFile where
  | found (content : String)
  | notFound
  | noContentField
  | httpError (code : Nat)
deriving Repr, DecidableEq

/-- `GithubClient.get_repository_file_content` (lines 97–126) for one
`(repo, path)` cache key, with the remote response an explicit input.
Returns the result (`.error` models a raised HTTPException), the file cache
after the call, and whether a remote fetch was performed. -/
def get_repository_file_content (cache : CacheMap) (remote : RemoteFile)
    (cache_key : String) (now : Int) :
    Except Unit (Option String) × CacheMap × Bool :=
  let cached_data := get_cached_data cache cache_key now
  if cached_data.isSome then
    (.ok cached_data, cache, false)
  else
    match remote with
    | .notFound =>
      (.ok none, set_cache_data cache cache_key none now 30, true)
    | .noContentField =>
      (.ok none, set_cache_data cache cache_key none now 30, true)
    | .found s =>
      (.ok (some s), set_cache_data cache cache_key (some s) now 30, true)
    | .httpError code =>
      if code = 404 then
        (.ok none, set_cache_data cache cache_key none now 30, true)
      else (.error (), cache, true)

/-- Concrete file cache holding an unexpired `None` entry for one key. -/
def fileCacheWithNone : CacheMap :=
  fun k =>
    if k = "file_content:r:mkdocs.yml" then some { data := none, expiry := 100 }
    else none

/-- Marker string searched on line 216. -/
def project_slug_marker : String := "github.com/project-slug"

/-- Marker string searched on line 219. -/
def datadog_marker : String := "datadoghq.com/graph-token"

/-- Python's substring test `sub in s`. -/
def strContains (s sub : String) : Bool :=
  decide (sub.data <:+: s.data)

/-- `file_contents[i] if not isinstance(file_contents[i], Exception) else None`
(lines 202–203, 209–210): an exceptional gather slot is treated as `None`. -/
def exceptToNone (r : Except Unit (Option String)) : Option String :=
  match r with
  | .ok v => v
  | .error _ => none

/-- Line 211: `catalog_content = catalog_yaml if catalog_yaml is not None else
catalog_yml` — the `.yaml` variant is preferred when obtained. -/
def selectedCatalog (catalog_yaml catalog_yml : Option String) : Option String :=
  if catalog_yaml.isSome then catalog_yaml else catalog_yml

/-- The `results` dict of `check_repository_files_batch`. -/
structure FilesBatchResult where
  have_tech_docs : Bool
  have_github_actions_annotations : Bool
  have_datadog : Bool
  catalog_content : Option String
deriving Repr, DecidableEq

/-- `GithubClient.check_repository_files_batch` (lines 182–222), cache-miss
path, as a function of the four concurrent fetch outcomes for `mkdocs.yml`,
`mkdocs.yaml`, `catalog-info.yaml`, `catalog-info.yml` (gathered with
`return_exceptions=True`).  Line 213's `if catalog_content and
isinstance(catalog_content, str)` is Python truthiness: an empty string skips
the marker checks. -/
def check_repository_files_batch
    (mkdocs_yml_r mkdocs_yaml_r catalog_yaml_r catalog_yml_r :
      Except Unit (Option String)) : FilesBatchResult :=
  let mkdocs_yml := exceptToNone mkdocs_yml_r
  let mkdocs_yaml := exceptToNone mkdocs_yaml_r
  let catalog_yaml := exceptToNone catalog_yaml_r
  let catalog_yml := exceptToNone catalog_yml_r
  let have_tech_docs := mkdocs_yml.isSome || mkdocs_yaml.isSome
  match selectedCatalog catalog_yaml catalog_yml with
  | some c =>
    if c = "" then
      { have_tech_docs := have_tech_docs
        have_github_actions_annotations := false
        have_datadog := false
        catalog_content := none }
    else
      { have_tech_docs := have_tech_docs
        have_github_actions_annotations := strContains c project_slug_marker
        have_datadog := strContains c datadog_marker
        catalog_content := some c }
  | none =>
    { have_tech_docs := have_tech_docs
      have_github_actions_annotations := false
      have_datadog := false
      catalog_content := none }

/-! ## Theorems -/

/-- On both paths of `sync_repositories` the returned lists are exactly the two
filter comprehensions of lines 80–81 (on the short-circuit path both are
empty, and so are the filters). -/
theorem sync_result_lists (env : SyncEnv) (bs : Nat) :
    (sync_repositories env bs).result.newRepositories = new_repos env ∧
    (sync_repositories env bs).result.deletedRepositories = delete_repos env := by
  simp only [sync_repositories]
  split
  · next h =>
    simp only [Bool.and_eq_true, List.isEmpty_eq_true] at h
    exact ⟨h.1.symm, h.2.symm⟩
  · exact ⟨rfl, rfl⟩

/-- Membership in `new_repos`: exactly the source-host names absent from the
store. -/
theorem mem_new_repos (env : SyncEnv) (x : String) :
    x ∈ new_repos env ↔
      x ∈ degradeFetch env.githubFetch ∧ x ∉ degradeFetch env.dbFetch := by
  simp [new_repos]

/-- Membership in `delete_repos`: exactly the stored names absent from the
source host. -/
theorem mem_delete_repos (env : SyncEnv) (x : String) :
    x ∈ delete_repos env ↔
      x ∈ degradeFetch env.dbFetch ∧ x ∉ degradeFetch env.githubFetch := by
  simp [delete_repos]

/-- C1: sync computes `additions = A − B` and `removals = B − A` as plain set
differences (membership characterisation), the additions list preserves A's
enumeration order and the removals list preserves B's enumeration order (they
are sublists of A resp. B, being filters), and the two lists are disjoint. -/
theorem sync_diff_is_set_difference (env : SyncEnv) (batch_size : Nat) :
    (sync_repositories env batch_size).result.newRepositories =
      (degradeFetch env.githubFetch).filter
        (fun item => !(degradeFetch env.dbFetch).contains item) ∧
    (sync_repositories env batch_size).result.deletedRepositories =
      (degradeFetch env.dbFetch).filter
        (fun item => !(degradeFetch env.githubFetch).contains item) ∧
    (∀ x, x ∈ (sync_repositories env batch_size).result.newRepositories ↔
      x ∈ degradeFetch env.githubFetch ∧ x ∉ degradeFetch env.dbFetch) ∧
    (∀ x, x ∈ (sync_repositories env batch_size).result.deletedRepositories ↔
      x ∈ degradeFetch env.dbFetch ∧ x ∉ degradeFetch env.githubFetch) ∧
    (sync_repositories env batch_size).result.newRepositories.Sublist
      (degradeFetch env.githubFetch) ∧
    (sync_repositories env batch_size).result.deletedRepositories.Sublist
      (degradeFetch env.dbFetch) ∧
    (∀ x, x ∈ (sync_repositories env batch_size).result.newRepositories →
      x ∉ (sync_repositories env batch_size).result.deletedRepositories) := by
  obtain ⟨hnew, hdel⟩ := sync_result_lists env batch_size
  rw [hnew, hdel]
  refine ⟨rfl, rfl, mem_new_repos env, mem_delete_repos env,
    List.filter_sublist _, List.filter_sublist _, ?_⟩
  intro x hx hx2
  rw [mem_new_repos] at hx
  rw [mem_delete_repos] at hx2
  exact hx.2 hx2.1

/-- C9: on both the short-circuit and the updated path, the counts in the
returned `SyncRepository` equal the lengths of the corresponding lists. -/
theorem sync_counts_match_lengths (env : SyncEnv) (bs : Nat) :
    (sync_repositories env bs).result.newRepositoriesCount =
      (sync_repositories env bs).result.newRepositories.length ∧
    (sync_repositories env bs).result.deletedRepositoriesCount =
      (sync_repositories env bs).result.deletedRepositories.length := by
  simp only [sync_repositories]
  split
  · exact ⟨rfl, rfl⟩
  · exact ⟨rfl, rfl⟩

/-- C3: `asyncio.gather(..., return_exceptions=True)` turns a raised exception
of any of the three top-level fetches into a value, which lines 65–78 degrade
to the empty list, so `sync_repositories` does not raise: running it with a
failed fetch outcome is literally the same computation as running it with that
source successfully returning the empty list, the other sources untouched. -/
theorem sync_tolerates_fetch_failures (env : SyncEnv) (bs : Nat) :
    degradeFetch (.error ()) = ([] : List String) ∧
    sync_repositories { env with dbFetch := .error () } bs =
      sync_repositories { env with dbFetch := .ok [] } bs ∧
    sync_repositories { env with githubFetch := .error () } bs =
      sync_repositories { env with githubFetch := .ok [] } bs ∧
    sync_repositories { env with backstageFetch := .error () } bs =
      sync_repositories { env with backstageFetch := .ok [] } bs := by
  refine ⟨rfl, ?_, ?_, ?_⟩ <;>
    simp only [sync_repositories, new_repos, delete_repos, degradeFetch]

/-- C2 counterexample: with equal source-host and stored name lists the
short-circuit result's status string is `"No changes"` (capital N, line 91),
not `"no changes"` as the claim states. -/
theorem sync_no_changes_status_counterexample :
    (sync_repositories envNoChange 10).result.status = "No changes" ∧
    (sync_repositories envNoChange 10).result.status ≠ "no changes" :=
  ⟨rfl, by decide⟩

/-- C2 (amended): whenever the source-host name set equals the stored name set,
`sync_repositories` short-circuits: status `"No changes"`, both lists empty,
both counts zero, no store writes, no enrichment calls, no pauses. -/
theorem sync_no_changes_short_circuit (env : SyncEnv) (bs : Nat)
    (hAB : ∀ x, x ∈ degradeFetch env.githubFetch ↔ x ∈ degradeFetch env.dbFetch) :
    sync_repositories env bs =
      { result :=
          { status := "No changes"
            newRepositories := []
            newRepositoriesCount := 0
            deletedRepositories := []
            deletedRepositoriesCount := 0 }
        storeOps := []
        enrichmentCalls := 0
        pauses := 0
        processedBatches := [] } := by
  have hnew : new_repos env = [] := by
    simp only [new_repos]
    rw [List.filter_eq_nil_iff]
    intro a ha
    have hmem := (hAB a).mp ha
    simp [hmem]
  have hdel : delete_repos env = [] := by
    simp only [delete_repos]
    rw [List.filter_eq_nil_iff]
    intro a ha
    have hmem := (hAB a).mpr ha
    simp [hmem]
  simp only [sync_repositories, hnew, hdel]
  rfl

/-- C2 witness: the amended short-circuit theorem applied to `envNoChange`. -/
theorem sync_no_changes_short_circuit_witness :
    (∀ x, x ∈ degradeFetch envNoChange.githubFetch ↔
      x ∈ degradeFetch envNoChange.dbFetch) ∧
    sync_repositories envNoChange 10 =
      { result :=
          { status := "No changes"
            newRepositories := []
            newRepositoriesCount := 0
            deletedRepositories := []
            deletedRepositoriesCount := 0 }
        storeOps := []
        enrichmentCalls := 0
        pauses := 0
        processedBatches := [] } :=
  ⟨fun _ => Iff.rfl, sync_no_changes_short_circuit envNoChange 10 (fun _ => Iff.rfl)⟩

/-- The chunk loop does nothing on an empty additions list. -/
theorem processChunks_nil (info : String → Option RepoInfo)
    (so : String → Except Unit Bool) (bk : List String) (us : Bool)
    (fuel bs : Nat) :
    processChunks info so bk us fuel [] bs = ([], 0, 0, []) := by
  cases fuel <;> rfl

/-- Arithmetic of the chunk count: removing one chunk of `bs` elements from a
non-empty list of `n` decreases `⌈n / bs⌉ = (n + bs - 1) / bs` by one. -/
theorem ceil_chunk_arith (n bs : Nat) (hbs : 0 < bs) (hn : 0 < n) :
    (n - bs + bs - 1) / bs + 1 = (n + bs - 1) / bs := by
  rcases Nat.lt_or_ge bs n with h | h
  · have h1 : n + bs - 1 = (n - bs + bs - 1) + bs := by omega
    rw [h1, Nat.add_div_right _ hbs]
  · have h0 : n - bs = 0 := by omega
    have h1 : n + bs - 1 = (n - 1) + bs := by omega
    rw [h0, h1, Nat.add_div_right _ hbs, Nat.zero_add,
      Nat.div_eq_of_lt (by omega : bs - 1 < bs),
      Nat.div_eq_of_lt (by omega : n - 1 < bs)]

/-- Full specification of the chunk loop, for any sufficient fuel and any
`batch_size ≥ 1`: the batches concatenate back to the input, their number is
`⌈n / bs⌉`, there is one enrichment call per batch, one pause per batch except
after the last, every batch but the last has exactly `bs` elements, and no
batch exceeds `bs`. -/
theorem processChunks_spec (info : String → Option RepoInfo)
    (so : String → Except Unit Bool) (bk : List String) (us : Bool)
    (bs : Nat) (hbs : 0 < bs) :
    ∀ (fuel : Nat) (l : List String), l.length ≤ fuel →
      (processChunks info so bk us fuel l bs).2.2.2.join = l ∧
      (processChunks info so bk us fuel l bs).2.2.2.length =
        (l.length + bs - 1) / bs ∧
      (processChunks info so bk us fuel l bs).2.1 =
        (processChunks info so bk us fuel l bs).2.2.2.length ∧
      (processChunks info so bk us fuel l bs).2.2.1 =
        (processChunks info so bk us fuel l bs).2.2.2.length - 1 ∧
      (∀ b ∈ (processChunks info so bk us fuel l bs).2.2.2.dropLast,
        b.length = bs) ∧
      (∀ b ∈ (processChunks info so bk us fuel l bs).2.2.2, b.length ≤ bs) := by
  intro fuel
  induction fuel with
  | zero =>
    intro l hl
    have h0 : l = [] := List.length_eq_zero.mp (Nat.le_zero.mp hl)
    subst h0
    rw [processChunks_nil]
    refine ⟨rfl, ?_, rfl, rfl, ?_, ?_⟩
    · exact (Nat.div_eq_of_lt (by omega : 0 + bs - 1 < bs)).symm
    · intro b hb; exact absurd hb (List.not_mem_nil b)
    · intro b hb; exact absurd hb (List.not_mem_nil b)
  | succ n ih =>
    intro l hl
    cases l with
    | nil =>
      rw [processChunks_nil]
      refine ⟨rfl, ?_, rfl, rfl, ?_, ?_⟩
      · exact (Nat.div_eq_of_lt (by omega : 0 + bs - 1 < bs)).symm
      · intro b hb; exact absurd hb (List.not_mem_nil b)
      · intro b hb; exact absurd hb (List.not_mem_nil b)
    | cons a t =>
      have hdrop : ((a :: t).drop bs).length ≤ n := by
        simp only [List.length_drop, List.length_cons]
        simp only [List.length_cons] at hl
        omega
      obtain ⟨ih1, ih2, ih3, ih4, ih5, ih6⟩ := ih ((a :: t).drop bs) hdrop
      have hlen : 0 < (a :: t).length := by simp
      simp only [processChunks]
      refine ⟨?_, ?_, ?_, ?_, ?_, ?_⟩
      · -- join of the batches is the input list
        simp only [List.join_cons, ih1]
        exact List.take_append_drop bs (a :: t)
      · -- number of batches
        simp only [List.length_cons, ih2, List.length_drop]
        exact ceil_chunk_arith (a :: t).length bs hbs hlen
      · -- one enrichment call per batch
        simp only [List.length_cons, ih3]
      · -- pauses: one per batch except after the last
        have hrlen : (processChunks info so bk us n ((a :: t).drop bs) bs).2.2.2.length =
            (((a :: t).drop bs).length + bs - 1) / bs := ih2
        rcases Nat.lt_or_ge bs (a :: t).length with h | h
        · -- more than one batch: this iteration pauses
          have hpos : 0 < ((a :: t).drop bs).length := by
            simp only [List.length_drop, List.length_cons]
            simp only [List.length_cons] at h
            omega
          have hbatches : 0 <
              (processChunks info so bk us n ((a :: t).drop bs) bs).2.2.2.length := by
            rw [hrlen]
            exact (Nat.one_le_div_iff hbs).mpr (by omega)
          rw [if_pos h]
          simp only [List.length_cons, ih4]
          omega
        · -- last batch: no pause, and the recursive part is empty
          have hdropnil : (a :: t).drop bs = [] := List.drop_eq_nil_of_le h
          rw [if_neg (by omega)]
          rw [hdropnil, processChunks_nil]
          simp
      · -- every batch except the last has exactly bs elements
        intro b hb
        rcases hrec : (processChunks info so bk us n ((a :: t).drop bs) bs).2.2.2 with
          _ | ⟨c, cs⟩
        · rw [hrec] at hb
          simp at hb
        · rw [hrec] at hb
          rw [List.dropLast_cons_of_ne_nil (by simp : c :: cs ≠ [])] at hb
          rcases List.mem_cons.mp hb with hb1 | hb2
          · -- the head batch is full: the recursion was non-empty
            subst hb1
            have hdropne : (a :: t).drop bs ≠ [] := by
              intro hnil
              rw [hnil, processChunks_nil] at hrec
              exact List.noConfusion hrec
            have hlt : bs < (a :: t).length := by
              by_contra hcon
              exact hdropne (List.drop_eq_nil_of_le (by omega))
            simp only [List.length_take]
            omega
          · rw [← hrec] at hb2
            exact ih5 b hb2
      · -- no batch exceeds bs elements
        intro b hb
        rcases List.mem_cons.mp hb with hb1 | hb2
        · subst hb1
          simp only [List.length_take]
          exact Nat.min_le_left bs (a :: t).length
        · exact ih6 b hb2

/-- On the non-short-circuit path the observable components of
`sync_repositories` are the deletions followed by the chunk loop's output. -/
theorem sync_components (env : SyncEnv) (bs : Nat)
    (h : ¬(new_repos env = [] ∧ delete_repos env = [])) :
    (sync_repositories env bs).processedBatches =
      (processChunks env.repoInfo env.sonar (degradeFetch env.backstageFetch)
        (pyTruthy env.sonarcloud_token && pyTruthy env.sonarcloud_org)
        (new_repos env).length (new_repos env) bs).2.2.2 ∧
    (sync_repositories env bs).enrichmentCalls =
      (processChunks env.repoInfo env.sonar (degradeFetch env.backstageFetch)
        (pyTruthy env.sonarcloud_token && pyTruthy env.sonarcloud_org)
        (new_repos env).length (new_repos env) bs).2.1 ∧
    (sync_repositories env bs).pauses =
      (processChunks env.repoInfo env.sonar (degradeFetch env.backstageFetch)
        (pyTruthy env.sonarcloud_token && pyTruthy env.sonarcloud_org)
        (new_repos env).length (new_repos env) bs).2.2.1 ∧
    (sync_repositories env bs).storeOps =
      (delete_repos env).map StoreOp.deleteOne ++
      (processChunks env.repoInfo env.sonar (degradeFetch env.backstageFetch)
        (pyTruthy env.sonarcloud_token && pyTruthy env.sonarcloud_org)
        (new_repos env).length (new_repos env) bs).1 := by
  have hcond : ¬(((new_repos env).isEmpty && (delete_repos env).isEmpty) = true) := by
    simp only [Bool.and_eq_true, List.isEmpty_eq_true]
    exact h
  simp only [sync_repositories]
  rw [if_neg hcond]
  exact ⟨rfl, rfl, rfl, rfl⟩

/-- C5: for a non-empty additions list and `batch_size ≥ 1`, sync processes
additions in exactly `⌈n / batch_size⌉` chunks (their concatenation is the
additions list, each chunk except possibly the last has exactly `batch_size`
elements, none exceeds it), performs one enrichment call per chunk, and pauses
exactly `chunks − 1` times (the pause after the last chunk is skipped); in
particular 25 additions with `batch_size = 10` give chunk sizes 10, 10, 5 and
exactly 2 pauses. -/
theorem sync_chunking (env : SyncEnv) (bs : Nat) (hbs : 1 ≤ bs)
    (hne : (sync_repositories env bs).result.newRepositories ≠ []) :
    ((sync_repositories env bs).processedBatches.length =
      ((sync_repositories env bs).result.newRepositories.length + bs - 1) / bs ∧
     (sync_repositories env bs).processedBatches.join =
      (sync_repositories env bs).result.newRepositories ∧
     (sync_repositories env bs).enrichmentCalls =
      (sync_repositories env bs).processedBatches.length ∧
     (sync_repositories env bs).pauses =
      (sync_repositories env bs).processedBatches.length - 1 ∧
     (∀ b ∈ (sync_repositories env bs).processedBatches.dropLast,
       b.length = bs) ∧
     (∀ b ∈ (sync_repositories env bs).processedBatches, b.length ≤ bs)) ∧
    ((sync_repositories env25 10).processedBatches.map List.length =
      [10, 10, 5] ∧
     (sync_repositories env25 10).pauses = 2) := by
  have hnew : (sync_repositories env bs).result.newRepositories = new_repos env :=
    (sync_result_lists env bs).1
  have hne2 : new_repos env ≠ [] := by rw [← hnew]; exact hne
  have hcomp := sync_components env bs (fun hc => hne2 hc.1)
  obtain ⟨s1, s2, s3, s4, s5, s6⟩ :=
    processChunks_spec env.repoInfo env.sonar (degradeFetch env.backstageFetch)
      (pyTruthy env.sonarcloud_token && pyTruthy env.sonarcloud_org) bs hbs
      (new_repos env).length (new_repos env) (Nat.le_refl _)
  refine ⟨⟨?_, ?_, ?_, ?_, ?_, ?_⟩, ?_, ?_⟩
  · rw [hcomp.1, hnew]; exact s2
  · rw [hcomp.1, hnew]; exact s1
  · rw [hcomp.2.1, hcomp.1]; exact s3
  · rw [hcomp.2.2.1, hcomp.1]; exact s4
  · rw [hcomp.1]; exact s5
  · rw [hcomp.1]; exact s6
  · rfl
  · rfl

/-- C5 witness: the chunking theorem applied to the concrete 25-repository
environment with `batch_size = 10`. -/
theorem sync_chunking_witness :
    (1 ≤ 10 ∧ (sync_repositories env25 10).result.newRepositories ≠ []) ∧
    (((sync_repositories env25 10).processedBatches.length =
      ((sync_repositories env25 10).result.newRepositories.length + 10 - 1) / 10 ∧
     (sync_repositories env25 10).processedBatches.join =
      (sync_repositories env25 10).result.newRepositories ∧
     (sync_repositories env25 10).enrichmentCalls =
      (sync_repositories env25 10).processedBatches.length ∧
     (sync_repositories env25 10).pauses =
      (sync_repositories env25 10).processedBatches.length - 1 ∧
     (∀ b ∈ (sync_repositories env25 10).processedBatches.dropLast,
       b.length = 10) ∧
     (∀ b ∈ (sync_repositories env25 10).processedBatches, b.length ≤ 10)) ∧
    ((sync_repositories env25 10).processedBatches.map List.length =
      [10, 10, 5] ∧
     (sync_repositories env25 10).pauses = 2)) :=
  ⟨⟨by decide, by decide⟩, sync_chunking env25 10 (by decide) (by decide)⟩

/-- With SonarCloud disabled (`useSonar = false`), every document in every
`insert_many` issued by the chunk loop has `sonarcloud.active = false`. -/
theorem processChunks_sonar_off (info : String → Option RepoInfo)
    (so : String → Except Unit Bool) (bk : List String) (bs : Nat) :
    ∀ (fuel : Nat) (l : List String) (op : StoreOp),
      op ∈ (processChunks info so bk false fuel l bs).1 →
      ∀ docs, op = StoreOp.insertMany docs →
        ∀ d ∈ docs, d.sonarcloud_active = false := by
  intro fuel
  induction fuel with
  | zero =>
    intro l op hop
    simp [processChunks] at hop
  | succ n ih =>
    intro l op hop
    cases l with
    | nil =>
      rw [processChunks_nil] at hop
      simp at hop
    | cons a t =>
      simp only [processChunks] at hop
      split at hop
      · exact ih (List.drop bs (a :: t)) op hop
      · rcases List.mem_cons.mp hop with hop1 | hop2
        · intro docs heq d hd
          rw [heq] at hop1
          have hdocs : docs =
              ((a :: t).take bs).map (buildDocument info so bk false) := by
            injection hop1.symm with h1
            exact h1.symm
          rw [hdocs] at hd
          rcases List.mem_map.mp hd with ⟨x, _, hx⟩
          rw [← hx]
          simp [buildDocument]
        · exact ih (List.drop bs (a :: t)) op hop2

/-- C8: if the quality-platform token or organisation is absent or
Python-falsy, the SonarCloud check is a no-op: every document inserted by
`sync_repositories` has `sonarcloud.active = false` regardless of the
SonarCloud oracle, and (the embedding being a total function taking the same
code path as any other configuration) the missing configuration never makes
sync fail. -/
theorem sonar_unconfigured_is_noop (env : SyncEnv) (bs : Nat)
    (h : pyTruthy env.sonarcloud_token = false ∨
      pyTruthy env.sonarcloud_org = false) :
    ∀ op ∈ (sync_repositories env bs).storeOps, ∀ docs,
      op = StoreOp.insertMany docs → ∀ d ∈ docs, d.sonarcloud_active = false := by
  have hus : (pyTruthy env.sonarcloud_token && pyTruthy env.sonarcloud_org)
      = false := by
    rcases h with h | h <;> simp [h]
  intro op hop docs heq d hd
  simp only [sync_repositories] at hop
  split at hop
  · simp at hop
  · rw [hus] at hop
    simp only [List.mem_append] at hop
    rcases hop with hdel | hins
    · rcases List.mem_map.mp hdel with ⟨x, _, hx⟩
      rw [heq] at hx
      exact StoreOp.noConfusion hx
    · exact processChunks_sonar_off env.repoInfo env.sonar
        (degradeFetch env.backstageFetch) bs (new_repos env).length
        (new_repos env) op hins docs heq d hd

/-- C8 witness: with the token unset, the single inserted document for `"r"`
has `sonarcloud.active = false` even though the oracle answers `true`. -/
theorem sonar_unconfigured_is_noop_witness :
    (pyTruthy envSonarOff.sonarcloud_token = false ∨
      pyTruthy envSonarOff.sonarcloud_org = false) ∧
    (sync_repositories envSonarOff 10).storeOps =
      [StoreOp.insertMany
        [{ name := "r"
           contributors := []
           backstage :=
             { active := false, tech_docs := false, sonar := false,
               github_actions := false, datadog := false }
           github_active := false
           sonarcloud_active := false }]] ∧
    (∀ op ∈ (sync_repositories envSonarOff 10).storeOps, ∀ docs,
      op = StoreOp.insertMany docs → ∀ d ∈ docs, d.sonarcloud_active = false) :=
  ⟨Or.inl rfl, rfl, sonar_unconfigured_is_noop envSonarOff 10 (Or.inl rfl)⟩

/-- C4 counterexample: for `"x"` absent from the source-host list,
`sync_single_repository` does not raise — it returns normally (lines 233–234)
with a `{"status": "error", ...}` dict — so "raises NotFoundError" is false as
stated.  The store is indeed untouched. -/
theorem syncOne_not_found_no_raise_counterexample :
    (sync_single_repository envSyncOne "x").1 =
      .ok { status := "error", message := "Repository x not found in GitHub" } ∧
    (sync_single_repository envSyncOne "x").1 ≠ .error () ∧
    (sync_single_repository envSyncOne "x").2 = [] :=
  ⟨rfl, fun h => Except.noConfusion h, rfl⟩

/-- C4 (amended): for every name absent from the successfully fetched
source-host list, `sync_single_repository` returns — without raising — the
error-status result `{"status": "error", "message": "Repository <x> not found
in GitHub"}` and performs no store operation of any kind. -/
theorem syncOne_not_found (env : SyncOneEnv) (x : String) (names : List String)
    (hg : env.githubFetch = .ok names) (habs : x ∉ names) :
    sync_single_repository env x =
      (.ok { status := "error"
             message := "Repository " ++ x ++ " not found in GitHub" }, []) := by
  have hc : names.contains x = false := by simp [habs]
  simp [sync_single_repository, hg, hc]
  intro hx
  exact absurd hx habs

/-- C4 witness: the amended theorem at the concrete environment. -/
theorem syncOne_not_found_witness :
    envSyncOne.githubFetch = .ok ["a"] ∧ "x" ∉ ["a"] ∧
    sync_single_repository envSyncOne "x" =
      (.ok { status := "error"
             message := "Repository " ++ "x" ++ " not found in GitHub" }, []) :=
  ⟨rfl, by decide, syncOne_not_found envSyncOne "x" ["a"] rfl (by decide)⟩

/-- C6: a `get(k)` after the expiry instant of the entry written by
`set(k, v, ttl)` misses, and a `get(k)` before the expiry instant returns `v`;
with `ttl = 0` the expiry instant is the write instant itself, so any later
`get` misses. -/
theorem cache_expiry (cache : CacheMap) (k v : String) (ttl t0 t : Int) :
    (t > t0 + ttl →
      get_cached_data (set_cache_data cache k (some v) t0 ttl) k t = none) ∧
    (t < t0 + ttl →
      get_cached_data (set_cache_data cache k (some v) t0 ttl) k t = some v) := by
  refine ⟨fun h => ?_, fun h => ?_⟩
  · have hexp : (CacheEntry.create (some v) t0 ttl).is_expired t = true := by
      simp only [CacheEntry.is_expired, CacheEntry.create, decide_eq_true_eq]
      exact h
    simp [get_cached_data, set_cache_data, hexp]
  · have hexp : ({ data := some v, expiry := t0 + ttl } : CacheEntry).is_expired t
        = false := by
      simp only [CacheEntry.is_expired, decide_eq_false_iff_not]
      omega
    simp [get_cached_data, set_cache_data, CacheEntry.create, hexp]

/-- C6 witness: `set("k", "v", ttl=0)` then `get` one instant later misses;
`set("k", "v", ttl=5)` then `get` two instants later (before expiry) hits. -/
theorem cache_expiry_witness :
    get_cached_data (set_cache_data (fun _ => none) "k" (some "v") 0 0) "k" 1
      = none ∧
    get_cached_data (set_cache_data (fun _ => none) "k" (some "v") 0 5) "k" 2
      = some "v" :=
  ⟨(cache_expiry (fun _ => none) "k" "v" 0 0 1).1 (by decide),
   (cache_expiry (fun _ => none) "k" "v" 5 0 2).2 (by decide)⟩

/-- A lookup that lands on an entry whose stored value is `None` observes a
miss, expired or not. -/
theorem get_cached_data_none_entry (cache : CacheMap) (k : String) (now : Int)
    (e : CacheEntry) (h1 : cache k = some e) (h2 : e.data = none) :
    get_cached_data cache k now = none := by
  simp only [get_cached_data, h1]
  split
  · exact h2
  · rfl

/-- A call that misses the cache always performs a remote fetch. -/
theorem fetch_performed_of_miss (cache : CacheMap) (remote : RemoteFile)
    (k : String) (now : Int) (h : get_cached_data cache k now = none) :
    (get_repository_file_content cache remote k now).2.2 = true := by
  simp only [get_repository_file_content, h, Option.isSome_none,
    Bool.false_eq_true, if_false]
  cases remote with
  | found s => rfl
  | notFound => rfl
  | noContentField => rfl
  | httpError code =>
    by_cases hc : code = 404
    · simp [hc]
    · simp [hc]

/-- C10: an unexpired cache entry whose stored value is `None` behaves exactly
as a miss — the call performs a remote fetch and returns the same result as on
a cache without the entry; and a 404 (`notFound`) stores a `none` entry under
the key, so every subsequent file-content request for that key performs a
fresh remote fetch (at any time, for any remote outcome). -/
theorem none_cache_entry_behaves_as_miss (cache : CacheMap) (cache_key : String)
    (now : Int) (remote : RemoteFile) (e : CacheEntry)
    (hentry : cache cache_key = some e) (hdata : e.data = none) :
    (get_repository_file_content cache remote cache_key now).2.2 = true ∧
    (get_repository_file_content cache remote cache_key now).1 =
      (get_repository_file_content (fun _ => none) remote cache_key now).1 ∧
    (remote = .notFound →
      (get_repository_file_content cache remote cache_key now).2.1 cache_key =
        some (CacheEntry.create none now 30) ∧
      ∀ (t : Int) (remote2 : RemoteFile),
        (get_repository_file_content
          (get_repository_file_content cache remote cache_key now).2.1
          remote2 cache_key t).2.2 = true) := by
  have hmiss : get_cached_data cache cache_key now = none :=
    get_cached_data_none_entry cache cache_key now e hentry hdata
  have hmiss0 : get_cached_data (fun _ => none) cache_key now = none := rfl
  refine ⟨fetch_performed_of_miss cache remote cache_key now hmiss, ?_, ?_⟩
  · simp only [get_repository_file_content, hmiss, hmiss0, Option.isSome_none,
      Bool.false_eq_true, if_false]
    cases remote with
    | found s => rfl
    | notFound => rfl
    | noContentField => rfl
    | httpError code =>
      by_cases hc : code = 404
      · simp [hc]
      · simp [hc]
  · intro hremote
    subst hremote
    have hset : (get_repository_file_content cache .notFound cache_key now).2.1 =
        set_cache_data cache cache_key none now 30 := by
      simp only [get_repository_file_content, hmiss, Option.isSome_none,
        Bool.false_eq_true, if_false]
    refine ⟨?_, ?_⟩
    · rw [hset]
      simp [set_cache_data]
    · intro t remote2
      rw [hset]
      refine fetch_performed_of_miss _ remote2 cache_key t ?_
      exact get_cached_data_none_entry _ cache_key t
        (CacheEntry.create none now 30) (by simp [set_cache_data]) rfl

/-- C10 witness: the theorem at the concrete cache, key and time `0` (the
entry expires at `100`, so it is unexpired), with a 404 remote outcome. -/
theorem none_cache_entry_behaves_as_miss_witness :
    (fileCacheWithNone "file_content:r:mkdocs.yml" =
      some { data := none, expiry := 100 } ∧
     ({ data := none, expiry := 100 } : CacheEntry).data = none) ∧
    ((get_repository_file_content fileCacheWithNone .notFound
        "file_content:r:mkdocs.yml" 0).2.2 = true ∧
     (get_repository_file_content fileCacheWithNone .notFound
        "file_content:r:mkdocs.yml" 0).1 =
      (get_repository_file_content (fun _ => none) .notFound
        "file_content:r:mkdocs.yml" 0).1 ∧
     (RemoteFile.notFound = .notFound →
      (get_repository_file_content fileCacheWithNone .notFound
        "file_content:r:mkdocs.yml" 0).2.1 "file_content:r:mkdocs.yml" =
        some (CacheEntry.create none 0 30) ∧
      ∀ (t : Int) (remote2 : RemoteFile),
        (get_repository_file_content
          (get_repository_file_content fileCacheWithNone .notFound
            "file_content:r:mkdocs.yml" 0).2.1
          remote2 "file_content:r:mkdocs.yml" t).2.2 = true)) :=
  ⟨⟨rfl, rfl⟩,
   none_cache_entry_behaves_as_miss fileCacheWithNone "file_content:r:mkdocs.yml"
     0 .notFound { data := none, expiry := 100 } rfl rfl⟩

/-- The empty string contains no occurrence of the project-slug marker. -/
theorem strContains_empty_slug : strContains "" project_slug_marker = false := by
  decide

/-- The empty string contains no occurrence of the datadog marker. -/
theorem strContains_empty_dd : strContains "" datadog_marker = false := by
  decide

/-- C7: the consolidated file check reports documentation present iff at least
one mkdocs variant's content was obtained; CI-annotation present iff the
selected catalog-descriptor content contains the project-slug marker;
observability-annotation present iff it contains the datadog graph-token
marker; a fetch that failed or found no file counts as absent. -/
theorem files_batch_booleans (r1 r2 r3 r4 : Except Unit (Option String)) :
    ((check_repository_files_batch r1 r2 r3 r4).have_tech_docs = true ↔
      (exceptToNone r1 ≠ none ∨ exceptToNone r2 ≠ none)) ∧
    ((check_repository_files_batch r1 r2 r3 r4).have_github_actions_annotations
        = true ↔
      ∃ c, selectedCatalog (exceptToNone r3) (exceptToNone r4) = some c ∧
        strContains c project_slug_marker = true) ∧
    ((check_repository_files_batch r1 r2 r3 r4).have_datadog = true ↔
      ∃ c, selectedCatalog (exceptToNone r3) (exceptToNone r4) = some c ∧
        strContains c datadog_marker = true) := by
  simp only [check_repository_files_batch]
  cases hcc : selectedCatalog (exceptToNone r3) (exceptToNone r4) with
  | none =>
    simp only [hcc]
    refine ⟨?_, ?_, ?_⟩
    · simp [Option.isSome_iff_ne_none]
    · simp
    · simp
  | some c =>
    simp only [hcc]
    by_cases hc : c = ""
    · subst hc
      rw [if_pos rfl]
      refine ⟨?_, ?_, ?_⟩
      · simp [Option.isSome_iff_ne_none]
      · simp [strContains_empty_slug]
      · simp [strContains_empty_dd]
    · rw [if_neg hc]
      refine ⟨?_, ?_, ?_⟩
      · simp [Option.isSome_iff_ne_none]
      · constructor
        · intro h
          exact ⟨c, rfl, h⟩
        · rintro ⟨c2, hc2, h⟩
          rw [Option.some_inj] at hc2
          subst hc2
          exact h
      · constructor
        · intro h
          exact ⟨c, rfl, h⟩
        · rintro ⟨c2, hc2, h⟩
          rw [Option.some_inj] at hc2
          subst hc2
          exact h

end AppReport
